import Mathlib

/-!
Verification of the credential & asynchronous-notification subsystem of the
`iwi` account service: a shallow embedding in Lean 4 of

* `src/models/types.rs` (`AccountStatus`),
* `src/library/error.rs` (the error taxonomy and `AppError::select_status_code`),
* `src/app/service/jwt_service.rs` (token generation / validation / refresh),
* `src/library/redisor.rs` (the prefixing cache wrapper),
* `src/app/api/controller/v1/account.rs` (verification-code handlers),
* `src/library/mqer.rs` (queue client: lease acquisition, publish, consume,
  graceful shutdown),

together with theorems settling the specified properties.  External
collaborators (the relational store, the cache connection, the broker, the
clock, password hashing) are modelled as explicit state or as outcome
parameters threaded through the embedded functions, so every embedded
operation is a pure, executable Lean function.
-/

deriving instance DecidableEq for Except

namespace Iwi

/-! ## Data model: `src/models/types.rs` -/

/-- `AccountStatus` from `src/models/types.rs` (`Active | Inactive | Suspend`). -/
inductive AccountStatus where
  | Active
  | Inactive
  | Suspend
deriving DecidableEq, Repr

/-! ## Error taxonomy: `src/library/error.rs`

Collaborator error payloads (`sqlx::Error`, `deadpool` errors, …) are opaque to
the mapping logic; they are embedded as `String` payloads. -/

/-- `RedisorError` from `src/library/error.rs`. -/
inductive RedisorError where
  | PoolError (e : String)
  | ExeError (e : String)
deriving DecidableEq, Repr

/-- `MqerError` from `src/library/error.rs`. -/
inductive MqerError where
  | PoolError (e : String)
  | ExeError (e : String)
deriving DecidableEq, Repr

/-- `AppInnerError` from `src/library/error.rs`. -/
inductive AppInnerError where
  | DataBaseError (e : String)
  | RedisError (e : RedisorError)
  | MQError (e : MqerError)
  | JsonError (e : String)
  | EmailError (e : String)
  | Unknown (s : String)
  | Anyhow (e : String)
deriving DecidableEq, Repr

/-- `ApiInnerError` from `src/library/error.rs`. -/
inductive ApiInnerError where
  | ValidationError (e : String)
  | AxumFormRejection (e : String)
  | CodeIntervalRejection
deriving DecidableEq, Repr

/-- `AuthInnerError` from `src/library/error.rs`. -/
inductive AuthInnerError where
  | UserAlreadyExists
  | WrongCredentials
  | MissingCredentials
  | TokenCreation
  | InvalidToken
  | WrongCode
  | AccountSuspended
  | InvalidTokenType
  | UserAlreadyActivated
deriving DecidableEq, Repr

/-- `AppError` from `src/library/error.rs`. -/
inductive AppError where
  | Unknown (s : String)
  | Anyhow (e : String)
  | ErrSystem (s : String)
  | InnerError (e : AppInnerError)
  | AuthError (e : AuthInnerError)
  | ApiError (e : ApiInnerError)
deriving DecidableEq, Repr

/-- HTTP status codes, as the numeric values of the `axum::http::StatusCode`
constants used in `src/library/error.rs`. -/
def OK : Nat := 200
def BAD_REQUEST : Nat := 400
def UNAUTHORIZED : Nat := 401
def FORBIDDEN : Nat := 403
def CONFLICT : Nat := 409
def UNPROCESSABLE_ENTITY : Nat := 422

/-- `AppError::select_status_code` from `src/library/error.rs` lines 100-138:
maps an error to its `(StatusCode, u32)` pair. -/
def AppError.select_status_code : AppError → Nat × Nat
  | .AuthError e =>
    match e with
    | .WrongCredentials => (UNAUTHORIZED, 10001)
    | .TokenCreation => (FORBIDDEN, 10002)
    | .InvalidToken => (UNAUTHORIZED, 10003)
    | .UserAlreadyExists => (CONFLICT, 10004)
    | .MissingCredentials => (UNAUTHORIZED, 10005)
    | .WrongCode => (UNAUTHORIZED, 10006)
    | .AccountSuspended => (UNAUTHORIZED, 10007)
    | .InvalidTokenType => (UNAUTHORIZED, 10008)
    | .UserAlreadyActivated => (CONFLICT, 10009)
  | .ApiError e =>
    match e with
    | .ValidationError _ => (UNPROCESSABLE_ENTITY, 20001)
    | .AxumFormRejection _ => (UNPROCESSABLE_ENTITY, 20001)
    | .CodeIntervalRejection => (OK, 30001)
  | _ => (BAD_REQUEST, 99999)

/-! ## Token service: `src/app/service/jwt_service.rs`

Timestamps are `Nat` seconds.  A signed token string is embedded as the pair
of the claims it carries and the secret it was signed with; verifying a
signature is comparing secrets, and `jsonwebtoken`'s default `Validation`
additionally checks that the `exp` claim lies in the future. -/

/-- `Claims` from `src/app/service/jwt_service.rs`. -/
structure Claims where
  uid : Int
  email : String
  status : AccountStatus
  iat : Nat
  exp : Nat
deriving DecidableEq, Repr

/-- `UserInfo` from `src/app/service/jwt_service.rs`. -/
structure UserInfo where
  uid : Int
  email : String
  status : AccountStatus
deriving DecidableEq, Repr

/-- A signed JWT string: the claims payload together with the signing secret.
Two token strings are equal exactly when payload and signing key agree. -/
structure Token where
  claims : Claims
  secret : String
deriving DecidableEq, Repr

/-- `TokenSchema` from `src/app/service/jwt_service.rs`. -/
structure TokenSchema where
  refresh_token : Token
  access_token : Token
deriving DecidableEq, Repr

/-- `TokenType` from `src/app/service/jwt_service.rs`. -/
inductive TokenType where
  | ACCESS
  | REFRESH
deriving DecidableEq, Repr

/-- `TokenSecretInfo` from `src/app/service/jwt_service.rs`: the per-type
signing secret and expiration window resolved from configuration. -/
structure TokenSecretInfo where
  secret : String
  expiration : Nat
deriving DecidableEq, Repr

/-- The immutable token configuration (`cfg::config().app.access_token` and
`.refresh_token`), resolved once into the two `OnceLock`-cached
`TokenSecretInfo` values `ACCESS_INFO` / `REFRESH_INFO`. -/
structure TokenConfig where
  access : TokenSecretInfo
  refresh : TokenSecretInfo
deriving DecidableEq, Repr

/-- Which `TokenSecretInfo` `Claims::parse_token` / `Claims::generate_tokens`
resolve for a token type (the `match token_type` on the two statics). -/
def TokenConfig.infoFor (cfg : TokenConfig) : TokenType → TokenSecretInfo
  | .ACCESS => cfg.access
  | .REFRESH => cfg.refresh

/-- `jsonwebtoken::decode` with `Validation::default()`: succeeds exactly when
the token was signed with `secret` and its `exp` claim is still in the
future. -/
def jwtDecode (secret : String) (now : Nat) (t : Token) : Option Claims :=
  if t.secret = secret ∧ now < t.claims.exp then some t.claims else none

/-- `TokenAuth::generate_token` for `TokenSecretInfo`
(`src/app/service/jwt_service.rs` lines 101-121): builds claims with
`iat = now`, `exp = now + expiration` and signs them with the type's secret.
HMAC encoding of a serialisable payload cannot fail, so the embedded
function returns the token directly (the Rust `TokenCreation` arm is dead). -/
def TokenSecretInfo.generate_token (info : TokenSecretInfo) (now : Nat)
    (credential : UserInfo) : Token :=
  { claims :=
      { uid := credential.uid
        email := credential.email
        status := credential.status
        exp := now + info.expiration
        iat := now }
    secret := info.secret }

/-- `TokenAuth::parse_token` for `TokenSecretInfo`
(`src/app/service/jwt_service.rs` lines 123-132): decode, mapping any decode
failure to `InvalidToken`. -/
def TokenSecretInfo.parse_token (info : TokenSecretInfo) (now : Nat)
    (token : Token) : Except AppError Claims :=
  match jwtDecode info.secret now token with
  | some c => .ok c
  | none => .error (.AuthError .InvalidToken)

/-- `Claims::generate_tokens` (`src/app/service/jwt_service.rs` lines
158-171): sign the credential with both secrets. -/
def Claims.generate_tokens (cfg : TokenConfig) (now : Nat)
    (credential : UserInfo) : TokenSchema :=
  { refresh_token := cfg.refresh.generate_token now credential
    access_token := cfg.access.generate_token now credential }

/-- `Claims::parse_token` (`src/app/service/jwt_service.rs` lines 173-191):
decode against the secret for `token_type`, then gate on the embedded status:
with `flag` set accept only `Active`, otherwise accept anything but
`Suspend`; every failure is `InvalidToken`. -/
def Claims.parse_token (cfg : TokenConfig) (now : Nat) (token : Token)
    (token_type : TokenType) (flag : Bool) : Except AppError Claims :=
  match (cfg.infoFor token_type).parse_token now token with
  | .error e => .error e
  | .ok claims =>
    if (flag = true ∧ claims.status = AccountStatus.Active) ∨
        (flag = false ∧ claims.status ≠ AccountStatus.Suspend) then
      .ok claims
    else
      .error (.AuthError .InvalidToken)

/-! ## Account store: `src/models/account.rs`

The relational store is a list of rows of the `bw_account` table; each
`Account::*` query is a pure function over it. -/

/-- `Account` from `src/models/account.rs` (timestamps dropped: no embedded
operation reads them). -/
structure Account where
  id : Int
  name : String
  email : String
  password : String
  status : AccountStatus
  language : String
deriving DecidableEq, Repr

/-- The relational store: the rows of `bw_account`. -/
abbrev Db := List Account

/-- `Account::fetch_user_by_uid` (`src/models/account.rs` lines 92-103):
`SELECT ... WHERE id = $1`, `fetch_optional`. -/
def fetch_user_by_uid (db : Db) (uid : Int) : Option Account :=
  db.find? (fun a => a.id = uid)

/-- `Account::update_password_by_uid` (`src/models/account.rs` lines
117-126): `UPDATE bw_account set password = $1 WHERE id = $2`. -/
def update_password_by_uid (db : Db) (uid : Int) (password : String) : Db :=
  db.map (fun a => if a.id = uid then { a with password := password } else a)

/-- `Claims::generate_tokens_for_user` (`src/app/service/jwt_service.rs`
lines 193-204). -/
def Claims.generate_tokens_for_user (cfg : TokenConfig) (now : Nat)
    (user : Account) : TokenSchema :=
  Claims.generate_tokens cfg now
    { uid := user.id, email := user.email, status := user.status }

/-- `Claims::refresh_token` (`src/app/service/jwt_service.rs` lines 206-217):
parse the presented string as a refresh token with the non-active-required
gate, re-fetch the account, and re-issue both tokens from the fetched row. -/
def Claims.refresh_token (cfg : TokenConfig) (now : Nat) (token : Token)
    (db : Db) : Except AppError TokenSchema :=
  match Claims.parse_token cfg now token .REFRESH false with
  | .error e => .error e
  | .ok claims =>
    match fetch_user_by_uid db claims.uid with
    | none => .error (.AuthError .WrongCredentials)
    | some user => .ok (Claims.generate_tokens_for_user cfg now user)

/-! ## Cache wrapper: `src/library/redisor.rs`

The cache contents are an association list of entries; `SET`/`SETEX`
overwrite, `DEL` removes, `GET` returns the stored value.  The recorded TTL
plays no active role here (expiry is the cache's native mechanism); it is kept
so the stored record carries exactly what `set_ex` sends.  Connection-level
failures of the cache are outside the embedded state. -/

/-- One cache entry: key, value and the TTL it was stored with. -/
structure StoreEntry where
  key : String
  value : String
  ttl : Nat
deriving DecidableEq, Repr

/-- The cache contents. -/
abbrev Store := List StoreEntry

/-- `GET key`. -/
def Store.lookup (s : Store) (k : String) : Option String :=
  (s.find? (fun e => e.key = k)).map (fun e => e.value)

/-- `SETEX key ttl value` (overwrites any previous entry for `key`). -/
def Store.setEx (s : Store) (k v : String) (ttl : Nat) : Store :=
  { key := k, value := v, ttl := ttl } :: s.filter (fun e => ¬ e.key = k)

/-- `DEL key`. -/
def Store.del (s : Store) (k : String) : Store :=
  s.filter (fun e => ¬ e.key = k)

/-- `Redis` from `src/library/redisor.rs`: a checked-out cache connection
carrying the configured key prefix (field `prefix` in the source). -/
structure Redis where
  prefixStr : String
deriving DecidableEq, Repr

/-- `Redis::key` (`src/library/redisor.rs` lines 51-53). -/
def Redis.key (r : Redis) (k : String) : String :=
  r.prefixStr ++ ":" ++ k

/-- `Redis::get` (`src/library/redisor.rs` lines 55-66): note it applies
`Redis::key` to its argument before reading. -/
def Redis.get (r : Redis) (s : Store) (k : String) : Option String :=
  Store.lookup s (r.key k)

/-- `Redis::set_ex` (`src/library/redisor.rs` lines 117-129): applies
`Redis::key` before writing. -/
def Redis.set_ex (r : Redis) (s : Store) (k v : String) (ttl : Nat) : Store :=
  Store.setEx s (r.key k) v ttl

/-- `Redis::del` (`src/library/redisor.rs` lines 108-115): applies
`Redis::key` before deleting. -/
def Redis.del (r : Redis) (s : Store) (k : String) : Store :=
  Store.del s (r.key k)

/-! ## Verification-code handlers: `src/app/api/controller/v1/account.rs`

Randomness (`crypto::random_words`), password hashing
(`crypto::hash_password`) and the outcome of the email-publish step are
passed in as parameters; the cache contents, the account rows and the result
are threaded explicitly. -/

/-- Modelled from the spec: `constants::REDIS_ACTIVE_ACCOUNT_KEY` is declared
in `src/app/bootstrap/constants.rs`, a module not among the sources; §3 of
the specification names the activation purpose `activate-account`.  Every
theorem below treats the value as opaque. -/
def REDIS_ACTIVE_ACCOUNT_KEY : String := "activate-account"

/-- Modelled from the spec: `constants::REDIS_RESET_PASSWORD_KEY` is declared
in `src/app/bootstrap/constants.rs`, a module not among the sources; §3 of
the specification names the reset purpose `reset-password`.  Every theorem
below treats the value as opaque. -/
def REDIS_RESET_PASSWORD_KEY : String := "reset-password"

/-- `send_active_account_email_handler` (`src/app/api/controller/v1/account.rs`
lines 121-155): pre-compute the prefixed key, reject with
`CodeIntervalRejection` when an unexpired code already exists, reject with
`UserAlreadyActivated` when the caller's status is not `Inactive`, then store
the fresh `code` for 300 s and publish the email job (`sendOutcome` is the
outcome of serialising and `basic_send`-ing it; on its failure the error
propagates after the code was stored). -/
def send_active_account_email_handler (r : Redis) (claims : Claims)
    (code : String) (sendOutcome : Except AppError Unit) (store : Store) :
    Except AppError Unit × Store :=
  let key := r.key (toString claims.uid ++ ":" ++ REDIS_ACTIVE_ACCOUNT_KEY)
  match r.get store key with
  | some _ => (.error (.ApiError .CodeIntervalRejection), store)
  | none =>
    if claims.status ≠ AccountStatus.Inactive then
      (.error (.AuthError .UserAlreadyActivated), store)
    else
      let store1 := r.set_ex store key code (60 * 5)
      match sendOutcome with
      | .error e => (.error e, store1)
      | .ok _ => (.ok (), store1)

/-- The tail of `verify_active_account_code_handler` after the code match
(`src/app/api/controller/v1/account.rs` lines 214-225): fetch the account,
issue fresh tokens, delete the cache key once more. -/
def verify_active_account_rest (cfg : TokenConfig) (now : Nat) (r : Redis)
    (db : Db) (claims : Claims) (key : String) (store : Store) :
    Except AppError TokenSchema × Store :=
  match fetch_user_by_uid db claims.uid with
  | none => (.error (.AuthError .WrongCredentials), store)
  | some user =>
    let tokens := Claims.generate_tokens_for_user cfg now user
    (.ok tokens, r.del store key)

/-- `verify_active_account_code_handler`
(`src/app/api/controller/v1/account.rs` lines 191-226): gate on
`Inactive` status, compare the stored code (present and different:
`WrongCode` without deleting; present and equal: delete; absent: fall
through), then fetch the account and issue fresh tokens. -/
def verify_active_account_code_handler (cfg : TokenConfig) (now : Nat)
    (r : Redis) (db : Db) (claims : Claims) (code : String) (store : Store) :
    Except AppError TokenSchema × Store :=
  if claims.status ≠ AccountStatus.Inactive then
    (.error (.AuthError .UserAlreadyActivated), store)
  else
    let key := r.key (toString claims.uid ++ ":" ++ REDIS_ACTIVE_ACCOUNT_KEY)
    match r.get store key with
    | some stored =>
      if stored = code then
        verify_active_account_rest cfg now r db claims key (r.del store key)
      else
        (.error (.AuthError .WrongCode), store)
    | none => verify_active_account_rest cfg now r db claims key store

/-- `change_password_handler` (`src/app/api/controller/v1/account.rs` lines
228-257): compare the stored reset code (present and different: `WrongCode`;
present and equal: hash the new password, update the row, delete the key;
absent: succeed without touching anything). -/
def change_password_handler (hash : String → String) (r : Redis) (db : Db)
    (claims : Claims) (code : String) (newPassword : String) (store : Store) :
    Except AppError Unit × Store × Db :=
  let key := r.key (toString claims.uid ++ ":" ++ REDIS_RESET_PASSWORD_KEY)
  match r.get store key with
  | some stored =>
    if stored = code then
      let db1 := update_password_by_uid db claims.uid (hash newPassword)
      (.ok (), r.del store key, db1)
    else
      (.error (.AuthError .WrongCode), store, db)
  | none => (.ok (), store, db)

/-! ## Queue client: `src/library/mqer.rs`

`Mqer`'s shared mutable state is its atomic `running` flag and in-flight
`count`; both are embedded as an explicit state record.  Broker interactions
(pool checkout, channel creation, queue declaration, publish, confirm,
consume, acknowledgement) are external and are passed in as outcome
parameters.  In every embedded operation a decrement of `count` follows an
increment in the same execution, so the `usize` subtraction never wraps and
`Nat` subtraction is exact. -/

/-- The shared mutable state of `Mqer` (`src/library/mqer.rs` lines 33-38):
the `running` flag and the in-flight counter. -/
structure MqerState where
  running : Bool
  count : Nat
deriving DecidableEq, Repr

/-- `Mqer::increase_count` (`src/library/mqer.rs` lines 124-126). -/
def Mqer.increase_count (s : MqerState) : MqerState :=
  { s with count := s.count + 1 }

/-- `Mqer::decrease_count` (`src/library/mqer.rs` lines 120-122). -/
def Mqer.decrease_count (s : MqerState) : MqerState :=
  { s with count := s.count - 1 }

/-- A borrowed pool connection (opaque). -/
inductive Conn where
  | mk
deriving DecidableEq, Repr

/-- `Mqer::get_conn` (`src/library/mqer.rs` lines 109-118): increment the
counter first, then check the running flag — if not running return
`Ok(None)` without touching the pool; otherwise surface the pool checkout
(`poolResult` is its external outcome). -/
def Mqer.get_conn (poolResult : Except String Conn) (s : MqerState) :
    Except AppInnerError (Option Conn) × MqerState :=
  let s1 := Mqer.increase_count s
  if s1.running = false then
    (.ok none, s1)
  else
    match poolResult with
    | .ok c => (.ok (some c), s1)
    | .error e => (.error (.MQError (.PoolError e)), s1)

/-- The external outcomes a `basic_send` execution depends on. -/
structure SendEnv where
  poolResult : Except String Conn
  createChannel : Except String Unit
  queueDeclare : Except String String
  publish : Except String Unit
  confirm : Except String Unit
deriving Repr

/-- `Mqer::basic_send` (`src/library/mqer.rs` lines 145-182): acquire a
connection, create a channel, declare the queue, publish and await the
confirm; only after all of that succeeds is the counter decremented.  Each
`?` failure returns with the counter still incremented. -/
def Mqer.basic_send (env : SendEnv) (s : MqerState) :
    Except AppInnerError Unit × MqerState :=
  match Mqer.get_conn env.poolResult s with
  | (.error e, s1) => (.error e, s1)
  | (.ok none, s1) => (.error (.Anyhow "Channel is going to be closed"), s1)
  | (.ok (some _), s1) =>
    match env.createChannel with
    | .error e => (.error (.MQError (.ExeError e)), s1)
    | .ok _ =>
      match env.queueDeclare with
      | .error e => (.error (.MQError (.ExeError e)), s1)
      | .ok _ =>
        match env.publish with
        | .error e => (.error (.MQError (.ExeError e)), s1)
        | .ok _ =>
          match env.confirm with
          | .error e => (.error (.MQError (.ExeError e)), s1)
          | .ok _ => (.ok (), Mqer.decrease_count s1)

/-- The external outcomes a `basic_receive` execution depends on. -/
structure ReceiveEnv where
  poolResult : Except String Conn
  createChannel : Except String Unit
  queueDeclare : Except String String
  basicConsume : Except String Unit
deriving Repr

/-- `Mqer::basic_receive` (`src/library/mqer.rs` lines 184-218): acquire a
connection, create a channel, declare the queue, register the consumer
(`set_delegate` has no counter effect), then decrement.  Each `?` failure
returns with the counter still incremented. -/
def Mqer.basic_receive (env : ReceiveEnv) (s : MqerState) :
    Except AppInnerError Unit × MqerState :=
  match Mqer.get_conn env.poolResult s with
  | (.error e, s1) => (.error e, s1)
  | (.ok none, s1) => (.error (.Anyhow "Channel is going to be closed"), s1)
  | (.ok (some _), s1) =>
    match env.createChannel with
    | .error e => (.error (.MQError (.ExeError e)), s1)
    | .ok _ =>
      match env.queueDeclare with
      | .error e => (.error (.MQError (.ExeError e)), s1)
      | .ok _ =>
        match env.basicConsume with
        | .error e => (.error (.MQError (.ExeError e)), s1)
        | .ok _ => (.ok (), Mqer.decrease_count s1)

/-- `lapin`'s `DeliveryResult` as seen by `Subscriber::on_new_delivery`:
`Ok(Some(delivery))` carrying the payload and the external outcome of the
later `ack`, `Ok(None)`, or `Err`. -/
inductive DeliveryResult where
  | delivery (data : String) (ackResult : Except String Unit)
  | consumerCancelled
  | err (e : String)
deriving Repr

/-- `Subscriber::on_new_delivery` (`src/library/mqer.rs` lines 58-83): on a
delivered message, increment the counter, and if the running flag is false
return at once (message neither processed nor acknowledged); otherwise run
the callback, attempt the acknowledgement (a failure is only logged) and
decrement.  The second component reports the payload handed to the callback,
when it ran. -/
def Subscriber.on_new_delivery (s : MqerState) (d : DeliveryResult) :
    MqerState × Option String :=
  match d with
  | .delivery data _ =>
    let s1 := Mqer.increase_count s
    if s1.running = false then
      (s1, none)
    else
      (Mqer.decrease_count s1, some data)
  | _ => (s, none)

/-- `TIMEOUT` from `src/library/mqer.rs` line 31. -/
def TIMEOUT : Nat := 5

/-- The polling loop of `Mqer::graceful_shutdown` (`src/library/mqer.rs`
lines 133-139).  `counts i` is the counter value observed by the `i`-th
atomic load (the counter is concurrently mutated by other tasks, so the
observations are an arbitrary trace); each iteration sleeps one second, so
the elapsed whole seconds equal the iteration index.  Returns the number of
elapsed seconds when the loop exits. -/
def shutdown_wait (counts : Nat → Nat) (elapsed : Nat) : Nat :=
  if 0 < counts elapsed then
    if TIMEOUT < elapsed then
      elapsed
    else
      shutdown_wait counts (elapsed + 1)
  else
    elapsed
termination_by TIMEOUT + 1 - elapsed
decreasing_by omega

/-- `Mqer::graceful_shutdown` (`src/library/mqer.rs` lines 128-143): store
`false` into the running flag, poll the counter until it is zero or the
timeout has elapsed (the timeout case is only logged), and return `Ok(())`.
The third component is the seconds the wait loop consumed. -/
def Mqer.graceful_shutdown (counts : Nat → Nat) (s : MqerState) :
    Except AppError Unit × MqerState × Nat :=
  (.ok (), { s with running := false }, shutdown_wait counts 0)

/-! ## Concrete fixtures

Shared concrete configuration, accounts and cache contents used by the
witnesses and counterexamples below. -/

/-- A concrete token configuration. -/
def cfgEx : TokenConfig :=
  { access := { secret := "access-secret", expiration := 900 }
    refresh := { secret := "refresh-secret", expiration := 86400 } }

/-- A concrete cache connection with prefix `iwi`. -/
def redisEx : Redis := { prefixStr := "iwi" }

/-- A concrete (injective) stand-in for `crypto::hash_password`. -/
def hashEx : String → String := fun s => "hashed:" ++ s

/-- A concrete inactive account with id 1. -/
def userEx : Account :=
  { id := 1
    name := "alice"
    email := "alice@example.com"
    password := "old-hash"
    status := .Inactive
    language := "en-US" }

/-- A store holding only `userEx`. -/
def dbEx : Db := [userEx]

/-- Claims for `userEx` while inactive. -/
def claimsInactiveEx : Claims :=
  { uid := 1, email := "alice@example.com", status := .Inactive, iat := 0, exp := 900 }

/-- Claims for account 1 with `Active` status. -/
def claimsActiveEx : Claims := { claimsInactiveEx with status := .Active }

/-- An access token for `claimsInactiveEx`, signed with the access secret. -/
def tokAccessEx : Token := { claims := claimsInactiveEx, secret := "access-secret" }

/-- A refresh token for account 1, issued while the account was `Active`. -/
def refreshTokEx : Token := { claims := claimsActiveEx, secret := "refresh-secret" }

/-- Account 1 after being suspended in the store. -/
def suspendedUserEx : Account := { userEx with status := .Suspend }

/-- A store in which account 1 has been set to `Suspend`. -/
def suspendedDbEx : Db := [suspendedUserEx]

/-- The pre-prefixed activation key the handlers compute for account 1. -/
def activeBaseKeyEx : String :=
  redisEx.key (toString (1 : Int) ++ ":" ++ REDIS_ACTIVE_ACCOUNT_KEY)

/-- The pre-prefixed reset key the handlers compute for account 1. -/
def resetBaseKeyEx : String :=
  redisEx.key (toString (1 : Int) ++ ":" ++ REDIS_RESET_PASSWORD_KEY)

/-- A cache holding the activation code `abc123` for account 1, stored the
same way `send_active_account_email_handler` stores it. -/
def storeActiveCodeEx : Store := redisEx.set_ex [] activeBaseKeyEx "abc123" 300

/-- A cache holding the reset code `zzz999` for account 1, stored the same
way `send_reset_password_email_handler` stores it. -/
def storeResetCodeEx : Store := redisEx.set_ex [] resetBaseKeyEx "zzz999" 60

/-! ## Helper lemmas about the token service -/

/-- Unfolding of `Claims::parse_token`: decode against the type's secret,
then gate on the embedded status. -/
theorem parse_token_spec (cfg : TokenConfig) (now : Nat) (tok : Token)
    (tt : TokenType) (flag : Bool) :
    Claims.parse_token cfg now tok tt flag =
      match jwtDecode (cfg.infoFor tt).secret now tok with
      | none => .error (.AuthError .InvalidToken)
      | some c =>
        if (flag = true ∧ c.status = AccountStatus.Active) ∨
            (flag = false ∧ c.status ≠ AccountStatus.Suspend) then
          .ok c
        else
          .error (.AuthError .InvalidToken) := by
  unfold Claims.parse_token TokenSecretInfo.parse_token
  cases jwtDecode (cfg.infoFor tt).secret now tok <;> rfl

/-- A successful decode returns exactly the token's embedded claims. -/
theorem jwtDecode_eq_some {secret : String} {now : Nat} {t : Token}
    {c : Claims} (h : jwtDecode secret now t = some c) : c = t.claims := by
  unfold jwtDecode at h
  split at h
  · exact (Option.some.inj h).symm
  · exact absurd h (by simp)

/-- A token whose embedded status is `Suspend` is rejected by
`Claims::parse_token` for every type, flag and time. -/
theorem parse_token_suspend_rejected (cfg : TokenConfig) (now : Nat)
    (tok : Token) (tt : TokenType) (flag : Bool)
    (h : tok.claims.status = AccountStatus.Suspend) :
    Claims.parse_token cfg now tok tt flag =
      .error (.AuthError .InvalidToken) := by
  rw [parse_token_spec]
  cases hd : jwtDecode (cfg.infoFor tt).secret now tok with
  | none => rfl
  | some c =>
    have hc : c = tok.claims := jwtDecode_eq_some hd
    subst hc
    dsimp only
    rw [if_neg]
    rintro (⟨_, ha⟩ | ⟨_, hs⟩)
    · rw [h] at ha; exact AccountStatus.noConfusion ha
    · exact hs h

/-! ## Settled claims -/

/-- C9: `AppError::select_status_code` is a total deterministic mapping (a
function on the embedded error type); `CodeIntervalRejection` maps to
`200 OK`/30001, `WrongCredentials` to 401/10001, `InvalidToken` to
401/10003, `UserAlreadyExists` to 409/10004, `WrongCode` to 401/10006,
`UserAlreadyActivated` to 409/10009, and every error outside the
`AuthError`/`ApiError` families to 400/99999. -/
theorem select_status_code_contract :
    AppError.select_status_code (.ApiError .CodeIntervalRejection) = (OK, 30001) ∧
    AppError.select_status_code (.AuthError .WrongCredentials) = (UNAUTHORIZED, 10001) ∧
    AppError.select_status_code (.AuthError .InvalidToken) = (UNAUTHORIZED, 10003) ∧
    AppError.select_status_code (.AuthError .UserAlreadyExists) = (CONFLICT, 10004) ∧
    AppError.select_status_code (.AuthError .WrongCode) = (UNAUTHORIZED, 10006) ∧
    AppError.select_status_code (.AuthError .UserAlreadyActivated) = (CONFLICT, 10009) ∧
    (∀ s, AppError.select_status_code (.Unknown s) = (BAD_REQUEST, 99999)) ∧
    (∀ s, AppError.select_status_code (.Anyhow s) = (BAD_REQUEST, 99999)) ∧
    (∀ s, AppError.select_status_code (.ErrSystem s) = (BAD_REQUEST, 99999)) ∧
    (∀ e, AppError.select_status_code (.InnerError e) = (BAD_REQUEST, 99999)) := by
  refine ⟨rfl, rfl, rfl, rfl, rfl, rfl, ?_, ?_, ?_, ?_⟩ <;> intro x <;> rfl

/-- C6: when the token's signature and expiry verify against the secret for
the given token type (`jwtDecode` succeeds), `Claims::parse_token` returns
the decoded claims exactly when the status gate passes — with `flag` set
only `Active`, with `flag` unset anything but `Suspend` — and every
signature, expiry or gate failure produces the single error `InvalidToken`. -/
theorem parse_token_gate_correct (cfg : TokenConfig) (now : Nat) (tok : Token)
    (tt : TokenType) (flag : Bool) :
    (∀ c, jwtDecode (cfg.infoFor tt).secret now tok = some c →
      (Claims.parse_token cfg now tok tt flag = .ok c ↔
        ((flag = true ∧ c.status = AccountStatus.Active) ∨
         (flag = false ∧ c.status ≠ AccountStatus.Suspend)))) ∧
    (jwtDecode (cfg.infoFor tt).secret now tok = none →
      Claims.parse_token cfg now tok tt flag =
        .error (.AuthError .InvalidToken)) ∧
    (∀ e, Claims.parse_token cfg now tok tt flag = .error e →
      e = .AuthError .InvalidToken) := by
  rw [parse_token_spec]
  cases hd : jwtDecode (cfg.infoFor tt).secret now tok with
  | none =>
    refine ⟨?_, ?_, ?_⟩
    · intro c hc
      exact Option.noConfusion hc
    · intro _
      rfl
    · intro e he
      dsimp only at he
      exact (Except.error.inj he).symm
  | some c0 =>
    dsimp only
    refine ⟨?_, ?_, ?_⟩
    · intro c hc
      have hcc : c0 = c := Option.some.inj hc
      subst hcc
      constructor
      · intro h
        by_cases hg : (flag = true ∧ c0.status = AccountStatus.Active) ∨
            (flag = false ∧ c0.status ≠ AccountStatus.Suspend)
        · exact hg
        · rw [if_neg hg] at h
          exact Except.noConfusion h
      · intro hg
        rw [if_pos hg]
    · intro h
      exact Option.noConfusion h
    · intro e he
      by_cases hg : (flag = true ∧ c0.status = AccountStatus.Active) ∨
          (flag = false ∧ c0.status ≠ AccountStatus.Suspend)
      · rw [if_pos hg] at he
        exact Except.noConfusion he
      · rw [if_neg hg] at he
        exact (Except.error.inj he).symm

/-- Witness for C6: the concrete inactive access token passes the
non-active-required gate and returns its claims. -/
theorem parse_token_gate_correct_witness :
    Claims.parse_token cfgEx 0 tokAccessEx .ACCESS false = .ok claimsInactiveEx :=
  ((parse_token_gate_correct cfgEx 0 tokAccessEx .ACCESS false).1
      claimsInactiveEx (by decide)).mpr (Or.inr ⟨rfl, by decide⟩)

/-- C2 counterexample: a validly signed, unexpired refresh token for account
1 (issued while `Active`), with the account since set to `Suspend` in the
store: `Claims::refresh_token` returns a fresh token pair and does not fail
with `InvalidToken` — the gate only inspects the status embedded in the
presented token. -/
theorem refresh_token_suspended_store_counterexample :
    Claims.refresh_token cfgEx 0 refreshTokEx suspendedDbEx =
      .ok (Claims.generate_tokens_for_user cfgEx 0 suspendedUserEx) ∧
    Claims.refresh_token cfgEx 0 refreshTokEx suspendedDbEx ≠
      .error (.AuthError .InvalidToken) := by
  constructor
  · decide
  · decide

/-- C2 amended: when the presented refresh token passes the gate and the
re-fetched account is `Suspend`ed, `refresh` succeeds and returns tokens
re-issued from the fresh store state; the suspension takes effect at the
next validation instead — both returned tokens fail `Claims::parse_token`
with `InvalidToken` for every flag and every time. -/
theorem refresh_token_suspended_store_amended (cfg : TokenConfig) (now : Nat)
    (tok : Token) (db : Db) (c : Claims) (u : Account)
    (hp : Claims.parse_token cfg now tok .REFRESH false = .ok c)
    (hf : fetch_user_by_uid db c.uid = some u)
    (hs : u.status = AccountStatus.Suspend) :
    Claims.refresh_token cfg now tok db =
      .ok (Claims.generate_tokens_for_user cfg now u) ∧
    (∀ now2 flag,
      Claims.parse_token cfg now2
          (Claims.generate_tokens_for_user cfg now u).access_token
          .ACCESS flag =
        .error (.AuthError .InvalidToken)) ∧
    (∀ now2 flag,
      Claims.parse_token cfg now2
          (Claims.generate_tokens_for_user cfg now u).refresh_token
          .REFRESH flag =
        .error (.AuthError .InvalidToken)) := by
  refine ⟨?_, ?_, ?_⟩
  · unfold Claims.refresh_token
    rw [hp]
    dsimp only
    rw [hf]
  · intro now2 flag
    apply parse_token_suspend_rejected
    simp [Claims.generate_tokens_for_user, Claims.generate_tokens,
      TokenSecretInfo.generate_token, hs]
  · intro now2 flag
    apply parse_token_suspend_rejected
    simp [Claims.generate_tokens_for_user, Claims.generate_tokens,
      TokenSecretInfo.generate_token, hs]

/-- Witness for the amended C2: the concrete suspended-store refresh
succeeds. -/
theorem refresh_token_suspended_store_amended_witness :
    Claims.refresh_token cfgEx 0 refreshTokEx suspendedDbEx =
      .ok (Claims.generate_tokens_for_user cfgEx 0 suspendedUserEx) :=
  (refresh_token_suspended_store_amended cfgEx 0 refreshTokEx suspendedDbEx
    claimsActiveEx suspendedUserEx (by decide) (by decide) (by decide)).1

/-- The cache after issuing the activation code `abc123` for account 1 into
an empty cache, exactly as `send_active_account_email_handler` stores it. -/
def storeIssuedEx : Store :=
  (send_active_account_email_handler redisEx claimsInactiveEx "abc123"
    (.ok ()) []).2

/-- First activation verify: correct code against `storeIssuedEx`. -/
def firstVerifyEx : Except AppError TokenSchema × Store :=
  verify_active_account_code_handler cfgEx 0 redisEx dbEx claimsInactiveEx
    "abc123" storeIssuedEx

/-- Second activation verify: the same subject resubmits the same code. -/
def secondVerifyEx : Except AppError TokenSchema × Store :=
  verify_active_account_code_handler cfgEx 0 redisEx dbEx claimsInactiveEx
    "abc123" firstVerifyEx.2

/-- First password change: correct reset code against `storeResetCodeEx`. -/
def firstChangeEx : Except AppError Unit × Store × Db :=
  change_password_handler hashEx redisEx dbEx claimsInactiveEx "zzz999"
    "new-password" storeResetCodeEx

/-- Second password change: the same subject resubmits the same code. -/
def secondChangeEx : Except AppError Unit × Store × Db :=
  change_password_handler hashEx redisEx firstChangeEx.2.2 claimsInactiveEx
    "zzz999" "other-password" firstChangeEx.2.1

/-- C1: the code violates round-trip-once.  The first verify with the
correct code succeeds and deletes the stored entry, but the second verify
with the same code does not fail with `WrongCode`: the absent-code branch of
both handlers falls through, so the activation flow hands out a second fresh
token pair and the reset flow reports success (silently leaving the
password as the first call set it). -/
theorem verify_code_second_use_succeeds :
    firstVerifyEx.1 = .ok (Claims.generate_tokens_for_user cfgEx 0 userEx) ∧
    firstVerifyEx.2 = [] ∧
    secondVerifyEx.1 = .ok (Claims.generate_tokens_for_user cfgEx 0 userEx) ∧
    secondVerifyEx.1 ≠ .error (.AuthError .WrongCode) ∧
    firstChangeEx.1 = .ok () ∧
    firstChangeEx.2.1 = [] ∧
    secondChangeEx.1 = .ok () ∧
    secondChangeEx.1 ≠ .error (.AuthError .WrongCode) ∧
    secondChangeEx.2.2 = firstChangeEx.2.2 := by
  decide

/-- C7: when a stored code exists and differs from the submitted one, both
verify handlers fail with `WrongCode`, the cache is returned unchanged (the
entry survives for a retry), and for the reset purpose the account rows —
hence the stored password — are returned unchanged as well. -/
theorem verify_code_mismatch_no_delete (cfg : TokenConfig) (now : Nat)
    (r : Redis) (db : Db) (claims : Claims) (code stored : String)
    (store : Store) (hash : String → String) (newPassword : String)
    (hne : stored ≠ code) :
    (claims.status = AccountStatus.Inactive →
      r.get store
          (r.key (toString claims.uid ++ ":" ++ REDIS_ACTIVE_ACCOUNT_KEY)) =
        some stored →
      verify_active_account_code_handler cfg now r db claims code store =
        (.error (.AuthError .WrongCode), store)) ∧
    (r.get store
        (r.key (toString claims.uid ++ ":" ++ REDIS_RESET_PASSWORD_KEY)) =
        some stored →
      change_password_handler hash r db claims code newPassword store =
        (.error (.AuthError .WrongCode), store, db)) := by
  constructor
  · intro hst hget
    unfold verify_active_account_code_handler
    rw [if_neg (by simp [hst])]
    dsimp only
    rw [hget]
    dsimp only
    rw [if_neg hne]
  · intro hget
    unfold change_password_handler
    dsimp only
    rw [hget]
    dsimp only
    rw [if_neg hne]

/-- Witness for C7: the concrete mismatching activation code is refused and
the cache entry survives. -/
theorem verify_code_mismatch_no_delete_witness :
    verify_active_account_code_handler cfgEx 0 redisEx dbEx claimsInactiveEx
        "wrong0" storeActiveCodeEx =
      (.error (.AuthError .WrongCode), storeActiveCodeEx) :=
  (verify_code_mismatch_no_delete cfgEx 0 redisEx dbEx claimsInactiveEx
      "wrong0" "abc123" storeActiveCodeEx hashEx "np" (by decide)).1
    (by decide) (by decide)

/-- C5 counterexample: account 1 is `Active` and an unexpired activation
code exists in the cache; the request fails with `CodeIntervalRejection`,
not `UserAlreadyActivated` — the cache check runs before the status gate. -/
theorem send_active_status_gate_counterexample :
    send_active_account_email_handler redisEx claimsActiveEx "newcod" (.ok ())
        storeActiveCodeEx =
      (.error (.ApiError .CodeIntervalRejection), storeActiveCodeEx) ∧
    (send_active_account_email_handler redisEx claimsActiveEx "newcod"
        (.ok ()) storeActiveCodeEx).1 ≠
      .error (.AuthError .UserAlreadyActivated) := by
  constructor <;> decide

/-- C5 amended: in `send_active_account_email_handler` the unexpired-code
cache check is applied first; a subject whose status is not `Inactive` gets
`UserAlreadyActivated` exactly when no unexpired code exists, and
`CodeIntervalRejection` when one does. -/
theorem send_active_status_gate_second (r : Redis) (claims : Claims)
    (code : String) (out : Except AppError Unit) (store : Store)
    (hs : claims.status ≠ AccountStatus.Inactive) :
    send_active_account_email_handler r claims code out store =
      match r.get store
          (r.key (toString claims.uid ++ ":" ++ REDIS_ACTIVE_ACCOUNT_KEY)) with
      | some _ => (.error (.ApiError .CodeIntervalRejection), store)
      | none => (.error (.AuthError .UserAlreadyActivated), store) := by
  unfold send_active_account_email_handler
  dsimp only
  cases r.get store
      (r.key (toString claims.uid ++ ":" ++ REDIS_ACTIVE_ACCOUNT_KEY)) with
  | some v => rfl
  | none =>
    dsimp only
    rw [if_pos hs]

/-- Witness for the amended C5: an `Active` subject with no outstanding code
gets `UserAlreadyActivated`. -/
theorem send_active_status_gate_second_witness :
    send_active_account_email_handler redisEx claimsActiveEx "newcod"
        (.ok ()) [] =
      (.error (.AuthError .UserAlreadyActivated), []) :=
  (send_active_status_gate_second redisEx claimsActiveEx "newcod" (.ok ()) []
      (by decide)).trans (by decide)

/-- The effective cache key when the configured prefix ends up applied
twice. -/
def doubleKey (r : Redis) (k : String) : String :=
  r.prefixStr ++ ":" ++ r.prefixStr ++ ":" ++ k

/-- String concatenation is associative. -/
theorem str_append_assoc (a b c : String) : a ++ b ++ c = a ++ (b ++ c) := by
  apply String.ext
  simp [String.data_append]

/-- Applying `Redis::key` to an already-prefixed key yields the doubled
key. -/
theorem key_key (r : Redis) (k : String) : r.key (r.key k) = doubleKey r k := by
  unfold Redis.key doubleKey
  apply String.ext
  simp [String.data_append]

/-- C10: every cache access the account handlers perform on a pre-computed
`Redis::key` result goes through the prefix twice — `get`, `set_ex` and
`del` all act on `doubleKey` — and one flow uses that same doubled key
consistently: the existence check of the send handler reads it, the store
writes it (TTL 300), and the consuming verify deletes it (twice). -/
theorem cache_key_prefix_doubled (cfg : TokenConfig) (now : Nat) (r : Redis)
    (db : Db) (claims : Claims) (code : String) (out : Except AppError Unit)
    (store : Store) :
    (∀ k v ttl,
      r.get store (r.key k) = Store.lookup store (doubleKey r k) ∧
      r.set_ex store (r.key k) v ttl =
        Store.setEx store (doubleKey r k) v ttl ∧
      r.del store (r.key k) = Store.del store (doubleKey r k)) ∧
    (∀ v,
      Store.lookup store
          (doubleKey r (toString claims.uid ++ ":" ++ REDIS_ACTIVE_ACCOUNT_KEY)) =
        some v →
      send_active_account_email_handler r claims code out store =
        (.error (.ApiError .CodeIntervalRejection), store)) ∧
    (Store.lookup store
        (doubleKey r (toString claims.uid ++ ":" ++ REDIS_ACTIVE_ACCOUNT_KEY)) =
        none →
      claims.status = AccountStatus.Inactive →
      (send_active_account_email_handler r claims code out store).2 =
        Store.setEx store
          (doubleKey r (toString claims.uid ++ ":" ++ REDIS_ACTIVE_ACCOUNT_KEY))
          code 300) ∧
    (claims.status = AccountStatus.Inactive →
      Store.lookup store
          (doubleKey r (toString claims.uid ++ ":" ++ REDIS_ACTIVE_ACCOUNT_KEY)) =
        some code →
      ∀ u, fetch_user_by_uid db claims.uid = some u →
      verify_active_account_code_handler cfg now r db claims code store =
        (.ok (Claims.generate_tokens_for_user cfg now u),
          Store.del
            (Store.del store
              (doubleKey r
                (toString claims.uid ++ ":" ++ REDIS_ACTIVE_ACCOUNT_KEY)))
            (doubleKey r
              (toString claims.uid ++ ":" ++ REDIS_ACTIVE_ACCOUNT_KEY)))) := by
  have hget : ∀ k, r.get store (r.key k) = Store.lookup store (doubleKey r k) := by
    intro k
    unfold Redis.get
    rw [key_key]
  refine ⟨?_, ?_, ?_, ?_⟩
  · intro k v ttl
    refine ⟨hget k, ?_, ?_⟩
    · unfold Redis.set_ex
      rw [key_key]
    · unfold Redis.del
      rw [key_key]
  · intro v hv
    unfold send_active_account_email_handler
    dsimp only
    rw [hget, hv]
  · intro hv hst
    unfold send_active_account_email_handler
    dsimp only
    rw [hget, hv]
    dsimp only
    rw [if_neg (by simp [hst])]
    cases out with
    | error e =>
      dsimp only
      unfold Redis.set_ex
      rw [key_key]
    | ok u =>
      dsimp only
      unfold Redis.set_ex
      rw [key_key]
  · intro hst hv u hu
    unfold verify_active_account_code_handler
    rw [if_neg (by simp [hst])]
    dsimp only
    rw [show r.get store
          (r.key (toString claims.uid ++ ":" ++ REDIS_ACTIVE_ACCOUNT_KEY)) =
        some code from (hget _).trans hv]
    dsimp only
    rw [if_pos rfl]
    unfold verify_active_account_rest
    rw [hu]
    dsimp only
    unfold Redis.del
    rw [key_key]

/-- Witness for C10: the concrete issued store holds its entry under the
doubled key, so the send handler's existence check trips on it. -/
theorem cache_key_prefix_doubled_witness :
    send_active_account_email_handler redisEx claimsActiveEx "c0" (.ok ())
        storeActiveCodeEx =
      (.error (.ApiError .CodeIntervalRejection), storeActiveCodeEx) :=
  (cache_key_prefix_doubled cfgEx 0 redisEx dbEx claimsActiveEx "c0" (.ok ())
      storeActiveCodeEx).2.1 "abc123" (by decide)

/-- C3: after `graceful_shutdown` has cleared the running flag,
`Mqer::get_conn` returns `Ok(None)` for every pool outcome (the pool is
never consulted), but it leaves the in-flight counter incremented by one:
the counter does not return to its pre-call value. -/
theorem get_conn_after_shutdown_leaks_count :
    ∀ (pr : Except String Conn) (n : Nat),
      Mqer.get_conn pr { running := false, count := n } =
        (.ok none, { running := false, count := n + 1 }) := by
  intro pr n
  cases pr <;> rfl

/-- A send environment in which every broker interaction succeeds. -/
def sendEnvOkEx : SendEnv :=
  { poolResult := .ok .mk
    createChannel := .ok ()
    queueDeclare := .ok "send-email"
    publish := .ok ()
    confirm := .ok () }

/-- A send environment in which channel creation fails. -/
def sendEnvChanFailEx : SendEnv :=
  { sendEnvOkEx with createChannel := .error "chan-err" }

/-- A receive environment in which consumer registration fails. -/
def recvEnvConsumeFailEx : ReceiveEnv :=
  { poolResult := .ok .mk
    createChannel := .ok ()
    queueDeclare := .ok "send-email"
    basicConsume := .error "consume-err" }

/-- C4: the counter increment is matched by a decrement only on the fully
successful paths.  A `basic_send` whose channel creation fails, a
`basic_receive` whose consumer registration fails, and a delivery arriving
once the running flag is down, all finish with the counter left incremented
by one; the successful paths do return it to its starting value. -/
theorem counter_decrement_not_paired_on_failure :
    (Mqer.basic_send sendEnvOkEx { running := true, count := 7 }).2.count = 7 ∧
    Mqer.basic_send sendEnvChanFailEx { running := true, count := 7 } =
      (.error (.MQError (.ExeError "chan-err")),
        { running := true, count := 8 }) ∧
    Mqer.basic_receive recvEnvConsumeFailEx { running := true, count := 7 } =
      (.error (.MQError (.ExeError "consume-err")),
        { running := true, count := 8 }) ∧
    Subscriber.on_new_delivery { running := false, count := 7 }
        (.delivery "m" (.ok ())) =
      ({ running := false, count := 8 }, none) ∧
    Subscriber.on_new_delivery { running := true, count := 7 }
        (.delivery "m" (.ok ())) =
      ({ running := true, count := 7 }, some "m") := by
  decide

/-- The wait loop exits after at most `TIMEOUT + 1` seconds. -/
theorem shutdown_wait_bound (counts : Nat → Nat) :
    ∀ n e, TIMEOUT + 1 ≤ e + n → e ≤ TIMEOUT + 1 →
      shutdown_wait counts e ≤ TIMEOUT + 1 := by
  intro n
  induction n with
  | zero =>
    intro e h1 h2
    rw [shutdown_wait]
    split
    · split
      · omega
      · omega
    · omega
  | succ n ih =>
    intro e h1 h2
    rw [shutdown_wait]
    split
    · split
      · exact h2
      · exact ih (e + 1) (by omega) (by omega)
    · exact h2

/-- C8: for every trace of counter observations — including traces in which
the counter never reaches zero — `Mqer::graceful_shutdown` clears the
running flag, spends at most `TIMEOUT + 1` seconds in the wait loop, and
returns `Ok`; the timeout case is never surfaced to the caller. -/
theorem graceful_shutdown_bounded (counts : Nat → Nat) (s : MqerState) :
    (Mqer.graceful_shutdown counts s).1 = .ok () ∧
    (Mqer.graceful_shutdown counts s).2.1 = { s with running := false } ∧
    (Mqer.graceful_shutdown counts s).2.2 ≤ TIMEOUT + 1 :=
  ⟨rfl, rfl, shutdown_wait_bound counts (TIMEOUT + 1) 0 (by omega) (by omega)⟩

end Iwi
